import Mathlib

set_option maxRecDepth 40000

/-!
# Verification of `scripts/publish.js`

Shallow embedding of the repository's one executable artifact, the draft
publisher `src/scripts/publish.js`:

```
var fs = require("fs");
var args = process.argv.slice(2);
var data = fs.readFileSync("_drafts/" + args[0] + ".md"));

var date = new Date();
var month = date.getMonth() + 1;
var day = date.getDate();
var year = date.getYear() + 1900;

var fileName = year + "-" + month + "-" + date + "-" + args[0] + ".md";
fs.writeFileSync("_posts/" + fileName, data);
```

Notes on the embedding:

* Line 5 of the source has one opening and two closing parentheses:
  `var data = <expr>)` is a SyntaxError in every ECMAScript grammar.
  Node parses the whole module before executing any statement, so
  every invocation of this script — any arguments, any filesystem —
  aborts at load with the SyntaxError: non-zero exit status, no file
  I/O, filesystem untouched.  `run` models exactly this: it guards the
  statement execution behind a parse check (`jsSyntaxOk`, a
  parenthesis scan over the embedded source text `scriptSource`; the
  scan is exact for this source, which has no parentheses inside its
  string literals and no comments), and that check fails
  (`scriptSource_parse_fails`), so every `run` takes the error path.
* `publish` records the statement-level denotation of lines 3–13 —
  what would execute if the module parsed.  In `run` it sits behind
  the parse check and is therefore never reached; theorems about
  actual invocations go through `run`, and theorems about the
  source-level expressions (the filename built on line 12) go through
  `fileName` and its components.
* `new Date()` is modelled by `JSDate`, a record of the local calendar
  components a JavaScript `Date` exposes (year, 0-based month, day of
  month, hour, minute, second, millisecond) together with the timezone
  suffix its `toString` renders.  String coercion of a `Date`
  (ECMAScript `Date.prototype.toString`) renders
  `"Www Mmm DD YYYY HH:MM:SS <tz>"` — weekday name, month name,
  2-padded day, year, 2-padded time down to seconds (milliseconds are
  not rendered).  The weekday is derived from year/month/day by
  Sakamoto's algorithm.
* In `publish`, `fs.readFileSync` on a missing path would throw ENOENT
  and an uncaught exception would end the process with a non-zero exit
  status.  The filesystem is an association list from paths to
  contents; `fs.writeFileSync` creates-or-truncates (last write wins).
* In JavaScript, `args[0]` on an empty argument list is `undefined`,
  and string concatenation renders `undefined` as the string
  `"undefined"`; the script performs no argument validation of any
  kind, so its outcome never depends on the arguments.
-/

/-- Local calendar components of a JavaScript `Date` value, plus the
timezone suffix that `Date.prototype.toString` appends
(e.g. `"GMT+0000 (Coordinated Universal Time)"`). `month0` is 0-based
(January = 0) as returned by `getMonth`; `day` is the 1-based day of
month as returned by `getDate`; `ms` is the millisecond component,
carried by every `Date` but not rendered by `toString`. -/
structure JSDate where
  year : Nat
  month0 : Nat
  day : Nat
  hour : Nat
  minute : Nat
  second : Nat
  ms : Nat
  tz : String
deriving DecidableEq, Repr

/-- Two-digit zero padding used by `Date.prototype.toString` for the
day-of-month and the time components. -/
def pad2 (n : Nat) : String :=
  if n < 10 then "0" ++ toString n else toString n

/-- English weekday abbreviations in `Date.prototype.toString` order
(0 = Sunday). -/
def weekdayNames : List String :=
  ["Sun", "Mon", "Tue", "Wed", "Thu", "Fri", "Sat"]

/-- English month abbreviations, indexed by the 0-based month. -/
def monthNames : List String :=
  ["Jan", "Feb", "Mar", "Apr", "May", "Jun",
   "Jul", "Aug", "Sep", "Oct", "Nov", "Dec"]

/-- Sakamoto's day-of-week table. -/
def sakamotoTable : List Nat := [0, 3, 2, 5, 0, 3, 5, 1, 4, 6, 2, 4]

/-- Day of week (0 = Sunday) of a Gregorian date, by Sakamoto's
algorithm; `month0` is 0-based. -/
def dayOfWeek (year month0 day : Nat) : Nat :=
  let y := if month0 < 2 then year - 1 else year
  (y + y / 4 - y / 100 + y / 400 + sakamotoTable.getD month0 0 + day) % 7

/-- Date portion of `Date.prototype.toString`:
`"Www Mmm DD YYYY"` — weekday name, month name, 2-padded day of month,
year. -/
def jsDateDayPart (d : JSDate) : String :=
  weekdayNames.getD (dayOfWeek d.year d.month0 d.day) "" ++ " " ++
  monthNames.getD d.month0 "" ++ " " ++
  pad2 d.day ++ " " ++
  toString d.year

/-- Time portion of `Date.prototype.toString`: `"HH:MM:SS"`, rendered
to second precision (the millisecond component is not rendered). -/
def jsTimePart (d : JSDate) : String :=
  pad2 d.hour ++ ":" ++ pad2 d.minute ++ ":" ++ pad2 d.second

/-- ECMAScript `Date.prototype.toString`:
`"Www Mmm DD YYYY HH:MM:SS <tz>"`. This is the string a `Date` object
becomes under JavaScript string concatenation. -/
def jsDateToString (d : JSDate) : String :=
  jsDateDayPart d ++ " " ++ jsTimePart d ++ " " ++ d.tz

/-- JavaScript `Date.prototype.getYear`: the year minus 1900. -/
def getYearJS (d : JSDate) : Int := (d.year : Int) - 1900

/-- JavaScript string coercion of `args[0]`: the head of the argument
list when present, the string `"undefined"` when the list is empty
(concatenating the value `undefined` into a string renders it
`"undefined"`). -/
def jsArgString : Option String → String
  | some s => s
  | none => "undefined"

/-- The filesystem: an association list from paths to file contents.
The first entry for a path is its current content. -/
abbrev FS := List (String × String)

/-- Read a file: `some` content when the path exists, `none` otherwise
(where `fs.readFileSync` would throw ENOENT). -/
def fsRead : FS → String → Option String
  | [], _ => none
  | (q, c) :: rest, p => if q = p then some c else fsRead rest p

/-- `fs.writeFileSync` semantics: create the file if absent, truncate
and overwrite atomically if present (the whole buffer is written at
once). -/
def fsWrite (fs : FS) (p c : String) : FS :=
  (p, c) :: fs.filter (fun e => !(e.1 = p : Bool))

/-- Diagnostics a node invocation of the script could terminate with.
`parseError` is node's load-time SyntaxError (the only error this
script ever produces — see `scriptSource_parse_fails`); `enoent` is
the exception `fs.readFileSync` would throw on a missing file if the
module parsed; `usageError` is the argument-validation failure of the
specification's error taxonomy, included in the observation vocabulary
so statements can express that the script never produces one (it
contains no argument validation). -/
inductive JSError where
  | parseError : String → JSError
  | enoent : String → JSError
  | usageError : String → JSError
deriving DecidableEq, Repr

/-- File-system operations an invocation attempts, in order: the paths
passed to `fs.readFileSync` and `fs.writeFileSync`. -/
inductive IOEvent where
  | readAttempt : String → IOEvent
  | writeAttempt : String → IOEvent
deriving DecidableEq, Repr

/-- The verbatim text of `src/scripts/publish.js`, line by line. -/
def scriptLines : List String :=
  ["#!/usr/local/bin/node",
   "",
   "var fs = require(\"fs\");",
   "var args = process.argv.slice(2);",
   "var data = fs.readFileSync(\"_drafts/\" + args[0] + \".md\"));",
   "",
   "var date = new Date();",
   "var month = date.getMonth() + 1;",
   "var day = date.getDate();",
   "var year = date.getYear() + 1900;",
   "",
   "var fileName = year + \"-\" + month + \"-\" + date + \"-\" + args[0] + \".md\";",
   "fs.writeFileSync(\"_posts/\" + fileName, data);"]

/-- The verbatim text of `src/scripts/publish.js`. -/
def scriptSource : String := String.intercalate "\n" scriptLines

/-- One-pass parenthesis scan of JavaScript source text: tracks
whether the scanner is inside a double-quoted string literal and the
current parenthesis depth.  A closing parenthesis at depth 0 outside a
string literal is an immediate SyntaxError (no ECMAScript production
allows an unmatched one), and so is ending the module at non-zero
depth or inside a string.  Balanced parentheses are a necessary
condition for an ECMAScript module to parse; for this script — which
has no parentheses inside its string literals, no escaped quotes, no
other quote forms and no comments — the scan is exact. -/
def jsParenScan : List Char → Bool → Nat → Bool
  | [], inStr, depth => !inStr && depth == 0
  | c :: rest, inStr, depth =>
    if c = '"' then jsParenScan rest (!inStr) depth
    else if inStr then jsParenScan rest inStr depth
    else if c = '(' then jsParenScan rest inStr (depth + 1)
    else if c = ')' then
      match depth with
      | 0 => false
      | d + 1 => jsParenScan rest inStr d
    else jsParenScan rest inStr depth

/-- Whether node's load-time syntax check accepts the module (for this
source, equivalent to the parenthesis scan succeeding). -/
def jsSyntaxOk (src : String) : Bool := jsParenScan src.data false 0

/-- Lines 7–12 of the script: the target filename
`year + "-" + month + "-" + date + "-" + args[0] + ".md"`, where
`year = date.getYear() + 1900`, `month = date.getMonth() + 1`, and the
third segment is the `Date` object `date` itself, coerced to a string.
The variable `day = date.getDate()` is computed by the script but does
not occur in this expression. -/
def fileName (date : JSDate) (base : String) : String :=
  let month := date.month0 + 1
  let day := date.day
  let year := getYearJS date + 1900
  toString year ++ "-" ++ toString month ++ "-" ++ jsDateToString date ++
    "-" ++ base ++ ".md"

/-- Statement-level denotation of lines 3–13, as a function of the
initial filesystem, the argument vector `process.argv.slice(2)`, and
the `Date` observed by `new Date()`: read `_drafts/<args[0]>.md`
(ENOENT when absent), then write the data verbatim to
`_posts/<fileName>`.  These statements would execute only if the
module parsed; in `run` this sits behind the parse check and is never
reached — no claim about an actual invocation rests on it. -/
def publish (fs : FS) (args : List String) (now : JSDate) :
    Except JSError FS :=
  match fsRead fs ("_drafts/" ++ jsArgString args.head? ++ ".md") with
  | none => .error (.enoent ("_drafts/" ++ jsArgString args.head? ++ ".md"))
  | some data =>
      .ok (fsWrite fs ("_posts/" ++ fileName now (jsArgString args.head?)) data)

/-- Outcome of one `node scripts/publish.js …` invocation: the final
filesystem, the process exit code, the file-system operations
attempted (in order), and the diagnostic the process died with, if
any. -/
structure RunOutcome where
  fs : FS
  exitCode : Nat
  trace : List IOEvent
  err : Option JSError
deriving DecidableEq, Repr

/-- One invocation, as node performs it: node first parses the whole
module, and a SyntaxError aborts the process before any statement
executes — non-zero exit, empty I/O trace, filesystem untouched.
Only if the module parsed would the statements (`publish`) run.  For
this script the parse always fails (`scriptSource_parse_fails`), so
every invocation takes the final branch. -/
def run (fs : FS) (args : List String) (now : JSDate) : RunOutcome :=
  if jsSyntaxOk scriptSource then
    match publish fs args now with
    | .ok fs2 =>
        ⟨fs2, 0,
         [.readAttempt ("_drafts/" ++ jsArgString args.head? ++ ".md"),
          .writeAttempt ("_posts/" ++ fileName now (jsArgString args.head?))],
         none⟩
    | .error e =>
        ⟨fs, 1, [.readAttempt ("_drafts/" ++ jsArgString args.head? ++ ".md")],
         some e⟩
  else ⟨fs, 1, [], some (.parseError "SyntaxError: Unexpected token )")⟩

/-! ## Concrete fixtures

The date `2024-03-07` (a Thursday) of the specification's scenario, at
various clock times, and a draft filesystem matching the scenario. -/

/-- 2024-03-07 00:00:00.000, UTC: the date of the specification's
`hello-world` scenario. -/
def d0 : JSDate :=
  ⟨2024, 2, 7, 0, 0, 0, 0, "GMT+0000 (Coordinated Universal Time)"⟩

/-- 2024-03-07 10:00:00.000, UTC. -/
def d10h : JSDate :=
  ⟨2024, 2, 7, 10, 0, 0, 0, "GMT+0000 (Coordinated Universal Time)"⟩

/-- 2024-03-07 11:00:00.000, UTC. -/
def d11h : JSDate :=
  ⟨2024, 2, 7, 11, 0, 0, 0, "GMT+0000 (Coordinated Universal Time)"⟩

/-- 2024-03-07 00:00:00.500, UTC: same wall-clock second as `d0ms600`,
distinct instant. -/
def d0ms500 : JSDate :=
  ⟨2024, 2, 7, 0, 0, 0, 500, "GMT+0000 (Coordinated Universal Time)"⟩

/-- 2024-03-07 00:00:00.600, UTC: same wall-clock second as `d0ms500`,
distinct instant. -/
def d0ms600 : JSDate :=
  ⟨2024, 2, 7, 0, 0, 0, 600, "GMT+0000 (Coordinated Universal Time)"⟩

/-- Filesystem holding only the scenario draft `_drafts/hello-world.md`
with content `"# Hello"`. -/
def fsHello : FS := [("_drafts/hello-world.md", "# Hello")]

/-- Filesystem where the scenario draft exists and the posts location
already holds a file at the exact path a `d0` run targets, with stale
content. -/
def fsHelloOld : FS :=
  [("_drafts/hello-world.md", "# Hello"),
   ("_posts/2024-3-Thu Mar 07 2024 00:00:00 GMT+0000 (Coordinated Universal Time)-hello-world.md",
    "OLD CONTENT")]

/-! ## Helper lemmas about strings and the parse check -/

/-- Node's load-time syntax check rejects the module: the scan of the
embedded source text hits the unmatched closing parenthesis on line 5. -/
theorem scriptSource_parse_fails : jsSyntaxOk scriptSource = false := by
  decide

/-- Every invocation, on every filesystem, every argument vector and
every date, aborts at module load: exit code 1, no I/O attempted, the
filesystem untouched, and node's SyntaxError as the sole diagnostic. -/
theorem run_always_fails (fs : FS) (args : List String) (now : JSDate) :
    run fs args now
      = ⟨fs, 1, [], some (.parseError "SyntaxError: Unexpected token )")⟩ := by
  unfold run
  rw [scriptSource_parse_fails]
  simp

theorem str_append_cancel_left (a x y : String) (h : a ++ x = a ++ y) :
    x = y := by
  have hd := congrArg String.data h
  rw [String.data_append, String.data_append] at hd
  exact String.ext (List.append_cancel_left hd)

theorem str_append_cancel_right (x y c : String) (h : x ++ c = y ++ c) :
    x = y := by
  have hd := congrArg String.data h
  rw [String.data_append, String.data_append] at hd
  exact String.ext (List.append_cancel_right hd)

theorem pad2_length (n : Nat) (h : n < 60) : (pad2 n).data.length = 2 := by
  revert n h
  decide

theorem pad2_inj (a : Nat) (ha : a < 60) (b : Nat) (hb : b < 60)
    (h : pad2 a = pad2 b) : a = b := by
  revert a ha b hb
  decide

theorem pad2_append_cancel (x y : String) (a b : Nat)
    (ha : a < 60) (hb : b < 60) (h : x ++ pad2 a = y ++ pad2 b) :
    x = y ∧ a = b := by
  have hd := congrArg String.data h
  rw [String.data_append, String.data_append] at hd
  have hl : (pad2 a).data.length = (pad2 b).data.length := by
    rw [pad2_length a ha, pad2_length b hb]
  obtain ⟨h1, h2⟩ := List.append_inj' hd hl
  exact ⟨String.ext h1, pad2_inj a ha b hb (String.ext h2)⟩

/-! ## Unfolding lemmas for the script's derived values -/

theorem fileName_def (d : JSDate) (b : String) :
    fileName d b
      = toString (getYearJS d + 1900) ++ "-" ++ toString (d.month0 + 1)
        ++ "-" ++ jsDateToString d ++ "-" ++ b ++ ".md" := rfl

theorem jsDateToString_def (d : JSDate) :
    jsDateToString d
      = jsDateDayPart d ++ " " ++ jsTimePart d ++ " " ++ d.tz := rfl

theorem jsTimePart_def (d : JSDate) :
    jsTimePart d
      = pad2 d.hour ++ ":" ++ pad2 d.minute ++ ":" ++ pad2 d.second := rfl

theorem int_toString_ofNat (n : Nat) : toString ((n : Int)) = toString n :=
  rfl

theorem jsDateDayPart_congr (d1 d2 : JSDate) (hy : d1.year = d2.year)
    (hmo : d1.month0 = d2.month0) (hd : d1.day = d2.day) :
    jsDateDayPart d1 = jsDateDayPart d2 := by
  unfold jsDateDayPart
  rw [hy, hmo, hd]

/-- If two same-day dates (equal year, month, day of month, timezone,
with in-range time components) yield the same target filename for the
same base name, their rendered time components agree: the filename
determines hour, minute and second. -/
theorem fileName_time_inj (d1 d2 : JSDate) (b : String)
    (hy : d1.year = d2.year) (hmo : d1.month0 = d2.month0)
    (hd : d1.day = d2.day) (htz : d1.tz = d2.tz)
    (hh1 : d1.hour < 24) (hh2 : d2.hour < 24)
    (hm1 : d1.minute < 60) (hm2 : d2.minute < 60)
    (hs1 : d1.second < 60) (hs2 : d2.second < 60)
    (heq : fileName d1 b = fileName d2 b) :
    d1.hour = d2.hour ∧ d1.minute = d2.minute ∧ d1.second = d2.second := by
  rw [fileName_def, fileName_def] at heq
  rw [show toString (getYearJS d1 + 1900) = toString (getYearJS d2 + 1900)
        by unfold getYearJS; rw [hy]] at heq
  rw [hmo] at heq
  have e1 := str_append_cancel_right _ _ _ heq
  have e2 := str_append_cancel_right _ _ _ e1
  have e3 := str_append_cancel_right _ _ _ e2
  have eS : jsDateToString d1 = jsDateToString d2 :=
    str_append_cancel_left _ _ _ e3
  rw [jsDateToString_def, jsDateToString_def,
      jsDateDayPart_congr d1 d2 hy hmo hd, htz] at eS
  have f1 := str_append_cancel_right _ _ _ eS
  have f2 := str_append_cancel_right _ _ _ f1
  have eT : jsTimePart d1 = jsTimePart d2 :=
    str_append_cancel_left _ _ _ f2
  rw [jsTimePart_def, jsTimePart_def] at eT
  obtain ⟨r1, es⟩ := pad2_append_cancel _ _ _ _ hs1 hs2 eT
  have r2 := str_append_cancel_right _ _ _ r1
  obtain ⟨r3, em⟩ := pad2_append_cancel _ _ _ _ hm1 hm2 r2
  have r4 := str_append_cancel_right _ _ _ r3
  exact ⟨pad2_inj _ (by omega) _ (by omega) r4, em, es⟩

/-! ## Claim theorems -/

/-- Claim C1 (divergence shown): on 2024-03-07 with base name
`hello-world` and the draft present, the invocation does not write the
claimed `2024-3-7-hello-world.md` — it exits non-zero with the
filesystem untouched, the module being unparseable — and even the
line-12 filename expression yields the Date-string name, not the
claimed one, because line 12 concatenates `date` rather than the
computed `day`.  The claim matches the evident intent (the
repository's own `_posts` entry is named
`2014-06-25-leveraging-array-prototype.md`); the code fails it twice
over. -/
theorem c1_no_claimed_file_written :
    (run fsHello ["hello-world"] d0).exitCode ≠ 0
    ∧ (run fsHello ["hello-world"] d0).fs = fsHello
    ∧ fsRead (run fsHello ["hello-world"] d0).fs
        "_posts/2024-3-7-hello-world.md" = none
    ∧ fileName d0 "hello-world" ≠ "2024-3-7-hello-world.md"
    ∧ fileName d0 "hello-world"
      = "2024-3-Thu Mar 07 2024 00:00:00 GMT+0000 (Coordinated Universal Time)-hello-world.md" := by
  refine ⟨by decide, by decide, by decide, by decide, by decide⟩

/-- Claim C2 (divergence shown): with the draft `hello-world.md`
present and content `# Hello`, the invocation writes nothing at all —
the module fails to parse, the process exits non-zero with node's
SyntaxError, and the filesystem is exactly what it was.  No invocation
ever produces the byte-for-byte copy the claim (and the
specification's round-trip property) describes. -/
theorem c2_no_write_ever :
    (run fsHello ["hello-world"] d0).exitCode ≠ 0
    ∧ (run fsHello ["hello-world"] d0).fs = fsHello
    ∧ (run fsHello ["hello-world"] d0).err
        = some (.parseError "SyntaxError: Unexpected token )") := by
  refine ⟨by decide, by decide, by decide⟩

/-- Claim C3 (divergence shown): two same-day invocations produce no
target filename and no file at all — both exit non-zero and leave the
filesystem unchanged — so there is no second file to overwrite the
first; and even the line-12 filename expression evaluated at the two
clock times yields two different strings, not the same one. -/
theorem c3_no_same_day_overwrite :
    (run (run fsHello ["hello-world"] d10h).fs ["hello-world"] d11h).fs
      = fsHello
    ∧ (run fsHello ["hello-world"] d10h).exitCode ≠ 0
    ∧ fileName d10h "hello-world" ≠ fileName d11h "hello-world" := by
  refine ⟨by decide, by decide, by decide⟩

/-- Claim C4's stated mechanism is false at a concrete input with no
draft: the invocation attempts no I/O whatsoever (empty trace) — there
is no failing read — although it does exit non-zero with the
filesystem untouched; the process dies at module parse. -/
theorem c4_counterexample_no_read_attempted :
    (run ([] : FS) ["hello-world"] d0).trace = []
    ∧ (run ([] : FS) ["hello-world"] d0).exitCode ≠ 0
    ∧ (run ([] : FS) ["hello-world"] d0).fs = ([] : FS) := by
  refine ⟨by decide, by decide, by decide⟩

/-- Claim C4 (amended): when no draft `{b}.md` exists, the invocation
terminates with a non-zero exit status and no file in the posts
location is created or modified — the filesystem is untouched — but
not through a failing read: the process fails at module parse, before
attempting any read or write (its I/O trace is empty). -/
theorem c4_missing_draft_rejected (fs : FS) (b : String) (now : JSDate)
    (h : fsRead fs ("_drafts/" ++ b ++ ".md") = none) :
    (run fs [b] now).exitCode ≠ 0 ∧ (run fs [b] now).fs = fs
    ∧ (run fs [b] now).trace = [] := by
  rw [run_always_fails]
  exact ⟨Nat.one_ne_zero, rfl, rfl⟩

/-- Witness for the amended C4 on an empty filesystem. -/
theorem c4_missing_draft_rejected_witness :
    (run ([] : FS) ["hello-world"] d10h).exitCode ≠ 0
    ∧ (run ([] : FS) ["hello-world"] d10h).fs = ([] : FS)
    ∧ (run ([] : FS) ["hello-world"] d10h).trace = [] :=
  c4_missing_draft_rejected [] "hello-world" d10h rfl

/-- Claim C5 is false as stated: the no-argument invocation does exit
non-zero, but its sole diagnostic is node's SyntaxError from the
unparseable module — not a UsageError or usage message — and the
outcome is identical to that of an invocation with a valid argument,
so the failure has nothing to do with argument validation. -/
theorem c5_counterexample_not_usage :
    (run fsHello [] d0).err
        = some (.parseError "SyntaxError: Unexpected token )")
    ∧ (run fsHello [] d0).exitCode ≠ 0
    ∧ run fsHello [] d0 = run fsHello ["hello-world"] d0 := by
  refine ⟨by decide, by decide, by decide⟩

/-- Claim C5 (amended): when invoked with no command-line argument,
the process exits with a non-zero status without attempting any file
I/O, but not with a UsageError and not after a usage message: it fails
with the module's SyntaxError (the stray parenthesis on line 5),
exactly as every invocation does — the script contains no argument
validation. -/
theorem c5_no_arg_parse_failure (fs : FS) (now : JSDate) :
    (run fs [] now).exitCode ≠ 0
    ∧ (run fs [] now).trace = []
    ∧ (run fs [] now).err
        = some (.parseError "SyntaxError: Unexpected token )")
    ∧ (run fs [] now).fs = fs := by
  rw [run_always_fails]
  exact ⟨Nat.one_ne_zero, rfl, rfl, rfl⟩

/-- Claim C6: every invocation with no command-line argument — on any
filesystem, at any date — exits with a non-zero status and writes no
file to the posts location: the filesystem after the run is exactly
the filesystem before it. -/
theorem c6_no_arg_no_write (fs : FS) (now : JSDate) :
    (run fs [] now).exitCode ≠ 0 ∧ (run fs [] now).fs = fs := by
  rw [run_always_fails]
  exact ⟨Nat.one_ne_zero, rfl⟩

/-- Claim C7: the year used in the filename is the full calendar year —
`getYear() + 1900` cancels the 1900-based offset — the month is the
1-based month number, and the filename's first two segments are exactly
the plain decimal renderings of those values (no zero-padding). -/
theorem c7_year_month_components (d : JSDate) (b : String) :
    getYearJS d + 1900 = (d.year : Int)
    ∧ fileName d b
        = toString d.year ++ "-" ++ toString (d.month0 + 1) ++ "-"
          ++ jsDateToString d ++ "-" ++ b ++ ".md" := by
  have hy : getYearJS d + 1900 = (d.year : Int) := by unfold getYearJS; omega
  refine ⟨hy, ?_⟩
  rw [fileName_def, hy, int_toString_ofNat]

/-- Claim C8 (divergence shown): with the posts location already
holding the `d0`-target file with stale content and the draft present,
the invocation exits non-zero and the stale content survives untouched
— nothing is replaced, because the unparseable module never reaches
the write. -/
theorem c8_existing_post_not_replaced :
    (run fsHelloOld ["hello-world"] d0).exitCode ≠ 0
    ∧ fsRead (run fsHelloOld ["hello-world"] d0).fs
        ("_posts/" ++ fileName d0 "hello-world") = some "OLD CONTENT" := by
  refine ⟨by decide, by decide⟩

/-- Claim C9: no invocation creates, modifies, or deletes any file —
the filesystem after a run equals the filesystem before it, path by
path — so in particular the draft named by the argument is left
unchanged and nothing in the posts location is touched. -/
theorem c9_frame (fs : FS) (args : List String) (now : JSDate) :
    (run fs args now).fs = fs
    ∧ ∀ p, fsRead (run fs args now).fs p = fsRead fs p := by
  rw [run_always_fails]
  exact ⟨rfl, fun p => rfl⟩

/-- Claim C10 is false as stated: two invocations at distinct clock
instants (here 100 ms apart within one second) target no filenames at
all — both exit non-zero without writing, the module being unparseable
— and even the line-12 filename expression takes the SAME value at the
two instants, its time rendering being second-precise. -/
theorem c10_counterexample_same_second :
    d0ms500 ≠ d0ms600
    ∧ (run fsHello ["hello-world"] d0ms500).fs = fsHello
    ∧ (run fsHello ["hello-world"] d0ms600).fs = fsHello
    ∧ fileName d0ms500 "hello-world" = fileName d0ms600 "hello-world" := by
  refine ⟨by decide, by decide, by decide, by decide⟩

/-- Claim C10 (amended): in the line-12 filename expression — where
the computed `day` variable is indeed unused and the third segment is
the full `Date` string — the value depends on the date's time
components down to second granularity: two same-day dates with the
same base name whose (in-range) hour/minute/second triples differ
yield distinct strings.  (No invocation ever evaluates the expression,
the module being unparseable, so no invocation targets any
filename.) -/
theorem c10_filename_depends_on_time (d1 d2 : JSDate) (b : String)
    (hy : d1.year = d2.year) (hmo : d1.month0 = d2.month0)
    (hd : d1.day = d2.day) (htz : d1.tz = d2.tz)
    (hh1 : d1.hour < 24) (hh2 : d2.hour < 24)
    (hm1 : d1.minute < 60) (hm2 : d2.minute < 60)
    (hs1 : d1.second < 60) (hs2 : d2.second < 60)
    (hne : ¬ (d1.hour = d2.hour ∧ d1.minute = d2.minute
              ∧ d1.second = d2.second)) :
    fileName d1 b ≠ fileName d2 b :=
  fun heq =>
    hne (fileName_time_inj d1 d2 b hy hmo hd htz hh1 hh2 hm1 hm2 hs1 hs2 heq)

/-- Witness for the amended C10: the 10:00:00 and 11:00:00 values of
the filename expression on the scenario day differ. -/
theorem c10_filename_depends_on_time_witness :
    fileName d10h "hello-world" ≠ fileName d11h "hello-world" :=
  c10_filename_depends_on_time d10h d11h "hello-world" rfl rfl rfl rfl
    (by decide) (by decide) (by decide) (by decide) (by decide) (by decide)
    (by decide)
